import Mathlib

/-!
Verification development for the mioty-UI EdgeCard reconciliation core.

The definitions below are shallow embeddings of the TypeScript source:
  - src/server/routes.ts   (extractMiotyParams, executeSSHCommand, getMiotyXMLConfig,
                            MiotyCliCommands, MiotyWatchdog, registerRoutes)
  - src/shared/schema.ts   (MemStorage: updateBaseStationConfig, addActivityLog)

Parsed XML documents (the output of xml2js parseString) are modelled as an
optional record of optional element texts: xml2js represents a present element
as a one-element string array, so element text is an Option String where a
present-but-empty element is some "".  JavaScript truthiness-based defaulting
(the || operator applied to a possibly-absent string) is modelled by
jsOrDefault, which treats both absence and the empty string as falsy.
-/

/-- Parsed form of the BaseStationConfig XML element, field name to first
element text, as produced by xml2js (routes.ts line 153: the lookups
config.field[0]).  A value some "" arises from a present empty element. -/
structure ParsedBSConfig where
  uniqueBaseStationId : Option String
  baseStationName : Option String
  baseStationVendor : Option String
  baseStationModel : Option String
  serviceCenterAddr : Option String
  serviceCenterPort : Option String
  profile : Option String
  tlsAuthRequired : Option String
  tlsAllowInsecure : Option String
deriving Repr, DecidableEq

/-- Parsed config with every element absent: models the object produced by
xml2js for a document with an empty or absent BaseStationConfig element. -/
def emptyParsed : ParsedBSConfig :=
  { uniqueBaseStationId := none, baseStationName := none, baseStationVendor := none
    baseStationModel := none, serviceCenterAddr := none, serviceCenterPort := none
    profile := none, tlsAuthRequired := none, tlsAllowInsecure := none }

/-- JavaScript defaulting x || d on an optional string: absent and the empty
string are both falsy, so both fall back to the default. -/
def jsOrDefault : Option String → String → String
  | some s, d => if s = "" then d else s
  | none, d => d

/-- Result record of the Configuration Extractor (routes.ts lines 162-172). -/
structure RemoteConfig where
  uniqueBaseStationId : String
  baseStationName : String
  baseStationVendor : String
  baseStationModel : String
  serviceCenterAddr : String
  serviceCenterPort : String
  profile : String
  tlsAuthRequired : Bool
  tlsAllowInsecure : Bool
deriving Repr, DecidableEq

/-- Embedding of extractMiotyParams (routes.ts lines 151-196).  The input is
the parsed XML document; none models a null/absent document or a document
without a BaseStationConfig key (the code reads xmlData?.BaseStationConfig
|| {}).  Every string field is read with field?.[0] || default, every boolean
field with field?.[0] === "true".  The function is total: the catch branch of
the source (returning all defaults) is unreachable for pure lookups. -/
def extractMiotyParams (xmlData : Option ParsedBSConfig) : RemoteConfig :=
  let config := xmlData.getD emptyParsed
  { uniqueBaseStationId := jsOrDefault config.uniqueBaseStationId ("unknown")
    baseStationName := jsOrDefault config.baseStationName ("mioty-bsm")
    baseStationVendor := jsOrDefault config.baseStationVendor ("Miromico")
    baseStationModel := jsOrDefault config.baseStationModel ("EDGE-GW-MY-868")
    serviceCenterAddr := jsOrDefault config.serviceCenterAddr ("localhost")
    serviceCenterPort := jsOrDefault config.serviceCenterPort ("8080")
    profile := jsOrDefault config.profile ("EU1")
    tlsAuthRequired := config.tlsAuthRequired = some ("true")
    tlsAllowInsecure := config.tlsAllowInsecure = some ("true") }

/-- All-defaults RemoteConfig (routes.ts lines 184-194). -/
def defaultRemoteConfig : RemoteConfig :=
  { uniqueBaseStationId := "unknown", baseStationName := "mioty-bsm"
    baseStationVendor := "Miromico", baseStationModel := "EDGE-GW-MY-868"
    serviceCenterAddr := "localhost", serviceCenterPort := "8080"
    profile := "EU1", tlsAuthRequired := false, tlsAllowInsecure := false }

/-- Correct extraction of one string field: a present non-empty element text
is taken verbatim, an absent or present-but-empty element yields the
documented default. -/
def fieldExtracted (o : Option String) (d r : String) : Prop :=
  (∀ s, s ≠ "" → o = some s → r = s) ∧ ((o = none ∨ o = some "") → r = d)

/-- Parsed document containing only a profile element with text US1
(the scenario input from the spec). -/
def us1Xml : ParsedBSConfig := { emptyParsed with profile := some ("US1") }

/-- Parsed document containing only an empty profile element. -/
def emptyProfileXml : ParsedBSConfig := { emptyParsed with profile := some ("") }

/-- Statement of the (amended) extractor claim at a given parsed input:
totality is inherent, every field present with non-empty text is taken
verbatim, absent or empty fields take the documented default, booleans are
true exactly when the element text is the string true, the absent document
yields all defaults, and the US1 scenario holds. -/
def extractorCorrect (x : ParsedBSConfig) : Prop :=
  fieldExtracted x.baseStationName ("mioty-bsm")
    (extractMiotyParams (some x)).baseStationName
  ∧ fieldExtracted x.baseStationVendor ("Miromico")
      (extractMiotyParams (some x)).baseStationVendor
  ∧ fieldExtracted x.baseStationModel ("EDGE-GW-MY-868")
      (extractMiotyParams (some x)).baseStationModel
  ∧ fieldExtracted x.serviceCenterAddr ("localhost")
      (extractMiotyParams (some x)).serviceCenterAddr
  ∧ fieldExtracted x.serviceCenterPort ("8080")
      (extractMiotyParams (some x)).serviceCenterPort
  ∧ fieldExtracted x.profile ("EU1") (extractMiotyParams (some x)).profile
  ∧ fieldExtracted x.uniqueBaseStationId ("unknown")
      (extractMiotyParams (some x)).uniqueBaseStationId
  ∧ ((extractMiotyParams (some x)).tlsAuthRequired = true
       ↔ x.tlsAuthRequired = some ("true"))
  ∧ ((extractMiotyParams (some x)).tlsAllowInsecure = true
       ↔ x.tlsAllowInsecure = some ("true"))
  ∧ extractMiotyParams none = defaultRemoteConfig
  ∧ (extractMiotyParams (some us1Xml)).profile = "US1"
  ∧ (extractMiotyParams (some us1Xml)).tlsAuthRequired = false
  ∧ (extractMiotyParams (some us1Xml)).serviceCenterAddr = "localhost"

/-!
State Store: the BaseStationConfig record of MemStorage (schema.ts).
The id and updatedAt columns (a random UUID and a wall-clock date) carry no
configuration content and are omitted from the embedding.
-/

/-- Stored base_station_config record (schema.ts lines 18-29); tlsAuthRequired
is a nullable boolean column, modelled as Option Bool. -/
structure StoredConfig where
  uniqueBaseStationId : String
  baseStationName : String
  baseStationVendor : String
  baseStationModel : String
  serviceCenterAddr : String
  serviceCenterPort : Int
  profile : String
  tlsAuthRequired : Option Bool
deriving Repr, DecidableEq

/-- Insert payload for updateBaseStationConfig (InsertBaseStationConfig):
profile and tlsAuthRequired are optional in the insert schema, the rest are
required.  tlsAuthRequired may also arrive as an explicit boolean. -/
structure InsertConfig where
  uniqueBaseStationId : String
  baseStationName : String
  baseStationVendor : String
  baseStationModel : String
  serviceCenterAddr : String
  serviceCenterPort : Int
  profile : Option String
  tlsAuthRequired : Option Bool
deriving Repr, DecidableEq

/-- Embedding of MemStorage.updateBaseStationConfig (schema.ts lines 325-341).
Every field of the stored record is rebuilt from the insert payload; the
previous record contributes only its id (omitted here).  The source writes
profile: config.profile || "EU1" and tlsAuthRequired: config.tlsAuthRequired
|| null, so a falsy profile falls back to EU1 and a false (or absent)
tlsAuthRequired is coerced to null. -/
def updateBaseStationConfig (_existing : Option StoredConfig)
    (config : InsertConfig) : StoredConfig :=
  { uniqueBaseStationId := config.uniqueBaseStationId
    baseStationName := config.baseStationName
    baseStationVendor := config.baseStationVendor
    baseStationModel := config.baseStationModel
    serviceCenterAddr := config.serviceCenterAddr
    serviceCenterPort := config.serviceCenterPort
    profile := jsOrDefault config.profile ("EU1")
    tlsAuthRequired := match config.tlsAuthRequired with
      | some true => some true
      | _ => none }

/-- JavaScript parseInt on a string: skip leading whitespace, optional sign,
then the leading run of decimal digits; none (NaN) when no digit follows. -/
def jsParseInt (s : String) : Option Int :=
  let cs := s.data.dropWhile (fun c => c = ' ' ∨ c = '\t' ∨ c = '\n' ∨ c = '\r')
  let digitsVal : List Char → Option Nat := fun ds =>
    let run := ds.takeWhile (fun c => c.isDigit)
    if run.isEmpty then none
    else some (run.foldl (fun acc c => 10 * acc + (c.toNat - 48)) 0)
  match cs with
  | '-' :: rest => (digitsVal rest).map (fun n => -(n : Int))
  | '+' :: rest => (digitsVal rest).map (fun n => (n : Int))
  | _ => (digitsVal cs).map (fun n => (n : Int))

/-- JavaScript parseInt(s) || d: NaN and a parsed value of 0 are both falsy
and fall back to the default (routes.ts line 721). -/
def parseIntOr (s : String) (d : Int) : Int :=
  match jsParseInt s with
  | none => d
  | some 0 => d
  | some n => n

/-- Pinned unique base-station identifier (routes.ts lines 719, 1230). -/
def pinnedUniqueId : String := "9C-65-F9-FF-FE-55-44-33"

/-- Insert payload built by the watchdog reconciliation cycle from the
extracted remote config (routes.ts lines 715-726): every field comes from
the remote data except uniqueBaseStationId, which is pinned. -/
def watchdogRealConfig (remote : RemoteConfig) : InsertConfig :=
  { uniqueBaseStationId := pinnedUniqueId
    baseStationName := remote.baseStationName
    baseStationVendor := remote.baseStationVendor
    baseStationModel := remote.baseStationModel
    serviceCenterAddr := remote.serviceCenterAddr
    serviceCenterPort := parseIntOr remote.serviceCenterPort 8080
    profile := some remote.profile
    tlsAuthRequired := some remote.tlsAuthRequired }

/-- Stored record after one reconciliation-driven config write
(routes.ts line 728: storage.updateBaseStationConfig(realConfig)). -/
def watchdogConfigWrite (stored : Option StoredConfig)
    (remote : RemoteConfig) : StoredConfig :=
  updateBaseStationConfig stored (watchdogRealConfig remote)

/-- Stored record after the GET /api/config reconciliation write (routes.ts
lines 1226-1243).  The handler builds the identical realConfig record and
spreads it over the previously stored config; since realConfig supplies
every insert-schema field, the merged insert payload equals realConfig. -/
def apiConfigWrite (stored : Option StoredConfig)
    (remote : RemoteConfig) : StoredConfig :=
  updateBaseStationConfig stored (watchdogRealConfig remote)

/-- Statement of the pinned-identifier claim: whatever the remote XML
supplied, every reconciliation-driven write stores the pinned constant as
uniqueBaseStationId, and every other stored field is overwritten from the
remote data alone — the written record does not depend on the previously
stored record, the plain string fields equal the remote values, the port is
the parsed remote port (default 8080), the profile is the remote profile
(non-empty by construction of the extractor), and tlsAuthRequired is the
remote boolean under the store's null coercion. -/
def pinnedWriteCorrect (s1 s2 : Option StoredConfig)
    (remote : RemoteConfig) : Prop :=
  (watchdogConfigWrite s1 remote).uniqueBaseStationId = pinnedUniqueId
  ∧ (apiConfigWrite s1 remote).uniqueBaseStationId = pinnedUniqueId
  ∧ watchdogConfigWrite s1 remote = watchdogConfigWrite s2 remote
  ∧ (watchdogConfigWrite s1 remote).baseStationName = remote.baseStationName
  ∧ (watchdogConfigWrite s1 remote).baseStationVendor = remote.baseStationVendor
  ∧ (watchdogConfigWrite s1 remote).baseStationModel = remote.baseStationModel
  ∧ (watchdogConfigWrite s1 remote).serviceCenterAddr = remote.serviceCenterAddr
  ∧ (watchdogConfigWrite s1 remote).serviceCenterPort
      = parseIntOr remote.serviceCenterPort 8080
  ∧ (remote.profile ≠ "" →
      (watchdogConfigWrite s1 remote).profile = remote.profile)
  ∧ (watchdogConfigWrite s1 remote).tlsAuthRequired
      = (if remote.tlsAuthRequired then some true else none)

/-- Concrete stored record used by witnesses (an arbitrary prior state). -/
def sampleStored : StoredConfig :=
  { uniqueBaseStationId := "AA"
    baseStationName := "n"
    baseStationVendor := "v"
    baseStationModel := "m"
    serviceCenterAddr := "a"
    serviceCenterPort := 1
    profile := "EU1"
    tlsAuthRequired := some true }

/-- Concrete insert payload used by witnesses, carrying an explicit
tlsAuthRequired = false. -/
def sampleInsertFalseTls : InsertConfig :=
  { uniqueBaseStationId := "u"
    baseStationName := "n"
    baseStationVendor := "v"
    baseStationModel := "m"
    serviceCenterAddr := "a"
    serviceCenterPort := 1
    profile := some ("EU1")
    tlsAuthRequired := some false }

/-- Statement of the tlsAuthRequired null-coercion claim: a write carrying an
explicit false stores null, and a reconciliation write from a remote config
with tlsAuthRequired false stores null rather than false. -/
def tlsNullCoercion (existing : Option StoredConfig) (i : InsertConfig)
    (remote : RemoteConfig) : Prop :=
  (i.tlsAuthRequired = some false →
    (updateBaseStationConfig existing i).tlsAuthRequired = none)
  ∧ (remote.tlsAuthRequired = false →
      (watchdogConfigWrite existing remote).tlsAuthRequired = none)

/-!
Activity log (MemStorage.addActivityLog, schema.ts lines 411-427).  The log
is a list ordered newest first; the id column (a random UUID) is omitted and
the timestamp assigned by new Date() at insertion is modelled as a Nat
supplied with the entry (wall-clock time is nondecreasing across calls).
-/

/-- Activity log entry (schema.ts lines 52-58 / 412-418). -/
structure ActivityLogEntry where
  timestamp : Nat
  level : String
  message : String
  source : Option String
deriving Repr, DecidableEq

/-- Embedding of MemStorage.addActivityLog: unshift the new entry onto the
front, then if the length exceeds 100 keep only the first 100 entries. -/
def addActivityLog (log : List ActivityLogEntry)
    (e : ActivityLogEntry) : List ActivityLogEntry :=
  if (e :: log).length > 100 then (e :: log).take 100 else e :: log

/-- Descending-timestamp order, newest first. -/
def sortedDesc (l : List ActivityLogEntry) : Prop :=
  l.Pairwise (fun a b => b.timestamp ≤ a.timestamp)

/-- Statement of the activity-log claim: starting from any log of length at
most 100, any sequence of insertions keeps the length at or below 100; each
insertion prepends its entry at the front; when the length would reach 101
(the log already holds 100 entries) the oldest entry is evicted, leaving the
new entry followed by the previous entries minus the last; and an insertion
whose timestamp is at least every stored timestamp preserves descending
order, newest first. -/
def activityLogCorrect (log : List ActivityLogEntry) (e : ActivityLogEntry)
    (es : List ActivityLogEntry) : Prop :=
  (log.length ≤ 100 → (es.foldl addActivityLog log).length ≤ 100)
  ∧ (addActivityLog log e).head? = some e
  ∧ (log.length = 100 → addActivityLog log e = e :: log.dropLast)
  ∧ (sortedDesc log → (∀ x ∈ log, x.timestamp ≤ e.timestamp) →
      sortedDesc (addActivityLog log e))

/-- Concrete length-100 log used by the C3 witness: entries with strictly
decreasing timestamps 100 down to 1. -/
def log100 : List ActivityLogEntry :=
  (List.range 100).map (fun i =>
    { timestamp := 100 - i, level := "INFO", message := "", source := none })

/-- Concrete entry newer than everything in log100. -/
def entry101 : ActivityLogEntry :=
  { timestamp := 101, level := "CONN", message := "", source := none }

/-!
Provisioning and discovery (MiotyWatchdog, routes.ts lines 572-776).  Each
externally-effectful step of performCompleteSetup either resolves or throws;
these outcomes are the inputs of the model.  The watchdog state relevant to
the claims is the setupCompleted flag; the discovery loop additionally binds
edgeCardIp, appends CONN log messages and sets the connection status.
-/

/-- Success/failure outcome of each of the five provisioning steps
(routes.ts lines 660-673): setupConnection, startConnection,
enableConnection, enablePf (enable service), startPf (start service). -/
structure SetupOutcomes where
  setupConnection : Bool
  startConnection : Bool
  enableConnection : Bool
  enablePf : Bool
  startPf : Bool
deriving Repr, DecidableEq

/-- All five steps succeed. -/
def allOk (o : SetupOutcomes) : Bool :=
  o.setupConnection && o.startConnection && o.enableConnection
    && o.enablePf && o.startPf

/-- Sequential execution of the five provisioning steps: returns the list of
step numbers attempted (execution stops at the first throwing step, which is
still attempted) and whether the whole sequence succeeded.  Mirrors the
straight-line awaits of performCompleteSetup, where a rejection aborts the
remainder of the try block. -/
def runSetupSteps (o : SetupOutcomes) : List Nat × Bool :=
  if !o.setupConnection then ([1], false)
  else if !o.startConnection then ([1, 2], false)
  else if !o.enableConnection then ([1, 2, 3], false)
  else if !o.enablePf then ([1, 2, 3, 4], false)
  else if !o.startPf then ([1, 2, 3, 4, 5], false)
  else ([1, 2, 3, 4, 5], true)

/-- Embedding of MiotyWatchdog.performCompleteSetup (routes.ts lines
651-691) acting on the setupCompleted flag: returns the new flag, the steps
attempted, and whether the call resolved (false = the error was logged and
rethrown).  The flag is set true only after all five steps resolved; on a
throw it is left unchanged. -/
def performCompleteSetup (o : SetupOutcomes) (setupCompleted : Bool) :
    Bool × List Nat × Bool :=
  (if (runSetupSteps o).2 then true else setupCompleted,
   (runSetupSteps o).1, (runSetupSteps o).2)

/-- Embedding of the connection-exists branch of
MiotyWatchdog.autoSetupAndConnect (routes.ts lines 594-615): when the stored
connection status is connected, provisioning runs only if setupCompleted is
still false; the thrown error of a failing setup is caught and logged at the
tick boundary.  Returns the new setupCompleted flag and the provisioning
steps attempted during the tick. -/
def autoSetupAndConnect (connStatus : String) (setupCompleted : Bool)
    (o : SetupOutcomes) : Bool × List Nat :=
  if connStatus = "connected" then
    if setupCompleted then (setupCompleted, [])
    else ((performCompleteSetup o setupCompleted).1,
          (performCompleteSetup o setupCompleted).2.1)
  else (setupCompleted, [])

/-- Statement of the provisioning-failure claim: a failing sequence leaves
setupCompleted unchanged (in particular false stays false) and rethrows; the
flag ends true exactly when it was already true or all five steps succeeded;
and a subsequent tick with the flag still false re-attempts the sequence
starting at step 1, running all five steps when they all succeed. -/
def provisioningRetryCorrect (o o2 : SetupOutcomes) (sc : Bool) : Prop :=
  (allOk o = false →
    (performCompleteSetup o sc).1 = sc ∧ (performCompleteSetup o sc).2.2 = false)
  ∧ ((performCompleteSetup o sc).1 = true ↔ (sc = true ∨ allOk o = true))
  ∧ ((autoSetupAndConnect ("connected") false o2).2.head? = some 1)
  ∧ (allOk o2 = true →
      (autoSetupAndConnect ("connected") false o2).2 = [1, 2, 3, 4, 5])

/-- Outcome assignment in which every provisioning step fails at its first
action. -/
def allFailOutcomes : SetupOutcomes :=
  { setupConnection := false, startConnection := false
    enableConnection := false, enablePf := false, startPf := false }

/-- Outcome assignment in which every provisioning step succeeds. -/
def allOkOutcomes : SetupOutcomes :=
  { setupConnection := true, startConnection := true
    enableConnection := true, enablePf := true, startPf := true }

/-- Number of leading provisioning steps that succeed before the first
failure. -/
def leadOk (o : SetupOutcomes) : Nat :=
  ([o.setupConnection, o.startConnection, o.enableConnection,
    o.enablePf, o.startPf].takeWhile id).length

/-- Outcome assignment in which step 1 (network setup) fails and every later
step would succeed. -/
def step1FailOutcomes : SetupOutcomes :=
  { setupConnection := false, startConnection := true
    enableConnection := true, enablePf := true, startPf := true }

/-- Outcome assignment in which step 2 (start connection) fails and every
other step would succeed. -/
def step2FailOutcomes : SetupOutcomes :=
  { setupConnection := true, startConnection := false
    enableConnection := true, enablePf := true, startPf := true }

/-- Statement of the amended abort-on-failure claim: whenever some step
fails, the call does not resolve (the error is logged at the step and
rethrown), setupCompleted is left unchanged, and the attempted steps are
exactly 1 through the first failing step — nothing after it runs. -/
def abortAtFailedStep (o : SetupOutcomes) (sc : Bool) : Prop :=
  allOk o = false →
    (performCompleteSetup o sc).2.2 = false
    ∧ (performCompleteSetup o sc).1 = sc
    ∧ (performCompleteSetup o sc).2.1 = List.range' 1 (leadOk o + 1)

/-!
Discovery (MiotyWatchdog.discoverAndSetup, routes.ts lines 617-649): iterate
the fixed candidate list, probing each address with a trivial SSH command.
The whole loop body — probe, bind address, CONN log, provisioning, status
update, break — sits in one try whose catch clause is continue, so a
rejection anywhere in the body moves on to the next candidate.
-/

/-- Fixed candidate address list (routes.ts lines 618-623). -/
def possibleIPs : List String :=
  ["172.30.1.2", "192.168.1.100", "192.168.4.1", "10.0.0.1"]

/-- Observable outcome of one discovery pass: the bound address, the
provisioning flag, the addresses probed (in order), the CONN log messages
emitted, and whether the stored connection status was set to connected. -/
structure DiscoveryResult where
  edgeCardIp : Option String
  setupCompleted : Bool
  probed : List String
  connLogs : List String
  connected : Bool
deriving Repr, DecidableEq

/-- Watchdog state at the start of a discovery pass: no bound address, no
probes or logs yet, status not connected. -/
def initDiscovery (sc : Bool) : DiscoveryResult :=
  { edgeCardIp := none, setupCompleted := sc, probed := [], connLogs := []
    connected := false }

/-- Embedding of the candidate loop of discoverAndSetup.  A failing probe
(the SSH echo rejects) continues with the next candidate.  A successful
probe binds edgeCardIp and emits the CONN log; then, if setup is not yet
completed, performCompleteSetup runs: when it resolves (or was skipped) the
status is set to connected and the loop breaks, but when it throws the catch
clause continues with the next candidate — without setting the status. -/
def discoverLoop (probe : String → Bool) (o : SetupOutcomes) :
    List String → DiscoveryResult → DiscoveryResult
  | [], r => r
  | ip :: rest, r =>
    if probe ip then
      if r.setupCompleted then
        { r with edgeCardIp := some ip, probed := r.probed ++ [ip],
                 connLogs := r.connLogs ++ [("EdgeCard discovered at " ++ ip)],
                 connected := true }
      else if (performCompleteSetup o r.setupCompleted).2.2 then
        { r with edgeCardIp := some ip, probed := r.probed ++ [ip],
                 connLogs := r.connLogs ++ [("EdgeCard discovered at " ++ ip)],
                 setupCompleted := (performCompleteSetup o r.setupCompleted).1,
                 connected := true }
      else
        discoverLoop probe o rest
          { r with edgeCardIp := some ip, probed := r.probed ++ [ip],
                   connLogs := r.connLogs ++ [("EdgeCard discovered at " ++ ip)],
                   setupCompleted := (performCompleteSetup o r.setupCompleted).1 }
    else
      discoverLoop probe o rest { r with probed := r.probed ++ [ip] }

/-- One discovery pass over the fixed candidate list. -/
def discoverAndSetup (probe : String → Bool) (o : SetupOutcomes)
    (r : DiscoveryResult) : DiscoveryResult :=
  discoverLoop probe o possibleIPs r

/-- Probe assignment in which exactly the third fixed candidate responds. -/
def thirdOnlyProbe (ip : String) : Bool :=
  ip == ("192.168.4.1")

/-- Statement of the amended discovery claim: for any candidate list whose
first two probes fail and third succeeds, provided provisioning does not
throw after the successful probe (it was already completed, or all five
steps succeed), the loop binds the third address, emits exactly its CONN
log, sets the status to connected, and probes no later candidate. -/
def discoveryBindsThird (probe : String → Bool) (o : SetupOutcomes)
    (a b c : String) (rest : List String) (sc : Bool) : Prop :=
  (discoverLoop probe o (a :: b :: c :: rest) (initDiscovery sc)).edgeCardIp
      = some c
  ∧ (discoverLoop probe o (a :: b :: c :: rest) (initDiscovery sc)).connected
      = true
  ∧ (discoverLoop probe o (a :: b :: c :: rest) (initDiscovery sc)).probed
      = [a, b, c]
  ∧ (discoverLoop probe o (a :: b :: c :: rest) (initDiscovery sc)).connLogs
      = [("EdgeCard discovered at " ++ c)]

/-!
Service Controller status query (MiotyCliCommands.getMiotyStatus, routes.ts
lines 550-557, and the status command of getEdgeCardConfig, line 224).  The
remote host is modelled by whether the systemctl query exits 0 (and with
what stdout) and whether the process table shows a mioty process; the SSH
transport outcome is modelled as Option RemoteHost (none = rejection:
unreachable host, auth failure or timeout).
-/

/-- Remote-host behaviour relevant to the status commands. -/
structure RemoteHost where
  systemctlActiveOk : Bool
  systemctlActiveOut : String
  psShowsMioty : Bool
deriving Repr, DecidableEq

/-- Shell semantics of the remote command issued by getMiotyStatus:
systemctl is-active mioty_bs 2>/dev/null || echo inactive.  The compound
command always exits 0, printing the systemctl output on success and the
literal inactive when systemctl fails. -/
def statusCmdSimple (h : RemoteHost) : String :=
  if h.systemctlActiveOk then h.systemctlActiveOut else "inactive"

/-- Shell semantics of the status command of getEdgeCardConfig (line 224):
systemctl is-active mioty_bs, falling back to a process-table grep that
prints active when a mioty process is found and inactive otherwise.  The
compound command always exits 0. -/
def statusCmdWithPs (h : RemoteHost) : String :=
  if h.systemctlActiveOk then h.systemctlActiveOut
  else if h.psShowsMioty then "active" else "inactive"

/-- Embedding of MiotyCliCommands.getMiotyStatus: a transport rejection is
caught and mapped to inactive; otherwise the trimmed stdout of the remote
compound command is returned.  The function is total — no error escapes. -/
def getMiotyStatus (transport : Option RemoteHost) : String :=
  match transport with
  | none => "inactive"
  | some h => statusCmdSimple h

/-- Statement of the degraded-status claim: whenever the primary systemctl
query fails and the process-table fallback also finds nothing, both status
commands evaluate to inactive, and getMiotyStatus resolves to inactive on a
transport rejection as well — never an error. -/
def statusDegradesToInactive (t : Option RemoteHost) : Prop :=
  (∀ h, t = some h → h.systemctlActiveOk = false → h.psShowsMioty = false →
    statusCmdWithPs h = "inactive")
  ∧ (∀ h, t = some h → h.systemctlActiveOk = false →
      getMiotyStatus t = "inactive")
  ∧ (t = none → getMiotyStatus t = "inactive")

/-- Remote host on which systemctl errors and no mioty process exists. -/
def deadHost : RemoteHost :=
  { systemctlActiveOk := false, systemctlActiveOut := "", psShowsMioty := false }

/-!
Transport timeout bounds (routes.ts).  executeSSHCommand: ConnectTimeout=5
seconds (line 14) and a 5-minute kill timer (lines 49-52).
getMiotyXMLConfig (the SCP file fetch): ConnectTimeout=10 seconds (line 67)
and a 2-minute kill timer (lines 143-146).
-/

/-- Total command timeout of the Remote Command Executor, in milliseconds
(routes.ts line 52). -/
def sshCommandTimeoutMs : Nat := 300000

/-- Total transfer timeout of the Remote File Fetcher, in milliseconds
(routes.ts line 146). -/
def scpTimeoutMs : Nat := 120000

/-- Connection timeout of the Remote Command Executor, in seconds
(routes.ts line 14). -/
def sshConnectTimeoutSec : Nat := 5

/-- Connection timeout of the Remote File Fetcher, in seconds
(routes.ts line 67). -/
def scpConnectTimeoutSec : Nat := 10

/-!
Remote File Fetcher temp-file lifecycle (getMiotyXMLConfig, routes.ts lines
57-148).  The function first unlinks any previous /tmp/mioty_bs_config.xml,
then runs scp; on exit 0 it reads the file, parses it, and unlinks the file
only after a successful parse.  The model takes the outcome of each
effectful stage and returns the promise outcome together with whether the
temp file exists after the promise settles.
-/

/-- Outcomes of the effectful stages of one fetch: whether scp exits 0,
whether a failed scp nevertheless left a (partial) file, whether
readFileSync succeeds, whether parseString succeeds, and the parsed
document on success. -/
structure FetchEnv where
  scpOk : Bool
  scpLeavesPartial : Bool
  readOk : Bool
  parseOk : Bool
  parsed : Option ParsedBSConfig
deriving Repr, DecidableEq

/-- Promise outcome of getMiotyXMLConfig. -/
inductive FetchOutcome
  | ok (doc : Option ParsedBSConfig)
  | err (reason : String)
deriving Repr, DecidableEq

/-- Embedding of getMiotyXMLConfig: returns the promise outcome and the
temp-file-exists state after the promise settles.  The pre-clean unlink
makes the starting state absent regardless of earlier invocations; the only
unlink on the settled paths is the one after a successful parse. -/
def getMiotyXMLConfig (env : FetchEnv) : FetchOutcome × Bool :=
  if !env.scpOk then (.err ("SCP failed"), env.scpLeavesPartial)
  else if !env.readOk then (.err ("Failed to read XML file"), true)
  else if !env.parseOk then (.err ("Failed to parse XML"), true)
  else (.ok env.parsed, false)

/-- Recogniser for a failed fetch. -/
def FetchOutcome.isErr : FetchOutcome → Bool
  | .ok _ => false
  | .err _ => true

/-- Fetch outcome environment in which the transfer and read succeed but
XML parsing fails. -/
def parseFailEnv : FetchEnv :=
  { scpOk := true, scpLeavesPartial := false, readOk := true
    parseOk := false, parsed := none }

/-- Fetch outcome environment in which every stage succeeds. -/
def fetchOkEnv : FetchEnv :=
  { scpOk := true, scpLeavesPartial := false, readOk := true
    parseOk := true, parsed := some us1Xml }

/-- Statement of the amended temp-file claim: a successful fetch leaves no
temp file; a fetch failing at read or parse leaves the fetched file on disk
(removed only by the pre-clean of the next invocation, which the model's
fixed absent starting state reflects); a fetch failing at transfer leaves
only whatever the failed transfer itself wrote. -/
def tempFileLifecycle (env : FetchEnv) : Prop :=
  ((getMiotyXMLConfig env).1.isErr = false → (getMiotyXMLConfig env).2 = false)
  ∧ (env.scpOk = true → (env.readOk = false ∨ env.parseOk = false) →
      (getMiotyXMLConfig env).1.isErr = true ∧ (getMiotyXMLConfig env).2 = true)
  ∧ (env.scpOk = false →
      (getMiotyXMLConfig env).2 = env.scpLeavesPartial)

/-!
Theorems.  Helper lemmas first, then one theorem per claim with its
witness or counterexample.
-/

/-- Helper: jsOrDefault realises fieldExtracted. -/
theorem fieldExtracted_jsOrDefault (o : Option String) (d : String) :
    fieldExtracted o d (jsOrDefault o d) := by
  constructor
  · intro s hs ho
    subst ho
    simp [jsOrDefault, hs]
  · intro h
    rcases h with h | h <;> subst h <;> simp [jsOrDefault]

/-- C1 counterexample: the claim says each field present in the XML is taken
from it, but a present-but-empty profile element (element text the empty
string) is replaced by the default EU1 because the source uses JavaScript
|| defaulting, which treats the empty string as falsy. -/
theorem C1_counterexample :
    emptyProfileXml.profile = some ("")
    ∧ (extractMiotyParams (some emptyProfileXml)).profile = "EU1"
    ∧ (extractMiotyParams (some emptyProfileXml)).profile ≠ "" := by
  refine ⟨rfl, by decide, by decide⟩

/-- C1 (amended): for every parsed XML input the extractor is total and
returns, per field, the element text when the element is present with
non-empty text, and the documented default when it is absent or empty;
boolean fields are true exactly when the element text equals "true"; an
absent document yields the all-defaults record; and the US1 scenario input
yields profile US1 with default tlsAuthRequired and serviceCenterAddr. -/
theorem C1_extractor (x : ParsedBSConfig) : extractorCorrect x := by
  refine ⟨?_, ?_, ?_, ?_, ?_, ?_, ?_, ?_, ?_, ?_, ?_, ?_, ?_⟩
  · exact fieldExtracted_jsOrDefault x.baseStationName ("mioty-bsm")
  · exact fieldExtracted_jsOrDefault x.baseStationVendor ("Miromico")
  · exact fieldExtracted_jsOrDefault x.baseStationModel ("EDGE-GW-MY-868")
  · exact fieldExtracted_jsOrDefault x.serviceCenterAddr ("localhost")
  · exact fieldExtracted_jsOrDefault x.serviceCenterPort ("8080")
  · exact fieldExtracted_jsOrDefault x.profile ("EU1")
  · exact fieldExtracted_jsOrDefault x.uniqueBaseStationId ("unknown")
  · simp [extractMiotyParams]
  · simp [extractMiotyParams]
  · decide
  · decide
  · decide
  · decide

/-- C1 witness: the amended extractor claim evaluated at the concrete
US1-scenario document. -/
theorem C1_extractor_witness : extractorCorrect us1Xml := C1_extractor us1Xml

/-- C2: for every reconciliation-driven write of the base-station
configuration, the stored uniqueBaseStationId equals the pinned constant
regardless of the remote XML content, and all other stored fields are
overwritten from the remote data (independently of the prior record). -/
theorem C2_pinnedUniqueId (s1 s2 : Option StoredConfig)
    (remote : RemoteConfig) : pinnedWriteCorrect s1 s2 remote := by
  refine ⟨rfl, rfl, rfl, rfl, rfl, rfl, rfl, rfl, ?_, ?_⟩
  · intro h
    simp [watchdogConfigWrite, updateBaseStationConfig, watchdogRealConfig,
      jsOrDefault, h]
  · cases hb : remote.tlsAuthRequired <;>
      simp [watchdogConfigWrite, updateBaseStationConfig, watchdogRealConfig, hb]

/-- C2 witness: the pinned-write claim evaluated at a concrete prior record
(none versus a populated record) and the US1-scenario remote config. -/
theorem C2_pinnedUniqueId_witness :
    pinnedWriteCorrect none (some sampleStored)
      (extractMiotyParams (some us1Xml)) :=
  C2_pinnedUniqueId _ _ _

/-- C10: updateBaseStationConfig coerces a false tlsAuthRequired to null on
write (config.tlsAuthRequired || null), so a reconciliation that extracted
the default tlsAuthRequired=false never persists an explicit false. -/
theorem C10_tlsNullCoercion (existing : Option StoredConfig)
    (i : InsertConfig) (remote : RemoteConfig) :
    tlsNullCoercion existing i remote := by
  constructor
  · intro h
    simp [updateBaseStationConfig, h]
  · intro h
    simp [watchdogConfigWrite, updateBaseStationConfig, watchdogRealConfig, h]

/-- C10 witness: the null coercion evaluated at a concrete insert payload
with tlsAuthRequired false and the all-defaults remote config (whose
tlsAuthRequired is false). -/
theorem C10_tlsNullCoercion_witness :
    (updateBaseStationConfig none sampleInsertFalseTls).tlsAuthRequired = none
    ∧ (watchdogConfigWrite none defaultRemoteConfig).tlsAuthRequired = none :=
  ⟨(C10_tlsNullCoercion none sampleInsertFalseTls defaultRemoteConfig).1 rfl,
   (C10_tlsNullCoercion none sampleInsertFalseTls defaultRemoteConfig).2 rfl⟩

/-- Helper: one insertion never leaves more than 100 entries when starting
from at most 100. -/
theorem addActivityLog_length_le (log : List ActivityLogEntry)
    (e : ActivityLogEntry) (h : log.length ≤ 100) :
    (addActivityLog log e).length ≤ 100 := by
  unfold addActivityLog
  split
  · rw [List.length_take]
    exact Nat.min_le_left _ _
  · next hl =>
      simp only [Nat.not_lt, List.length_cons] at hl ⊢
      omega

/-- Helper: the cap is preserved by any sequence of insertions. -/
theorem foldl_addActivityLog_length_le (es : List ActivityLogEntry)
    (log : List ActivityLogEntry) (h : log.length ≤ 100) :
    (es.foldl addActivityLog log).length ≤ 100 := by
  induction es generalizing log with
  | nil => simpa using h
  | cons e es ih =>
      simpa using ih (addActivityLog log e) (addActivityLog_length_le log e h)

/-- C3: the activity log is capped at 100 entries across any sequence of
inserts, each insert prepends at the front, the 101st insert evicts the
oldest entry, and the log stays in descending-timestamp (newest-first)
order when timestamps are assigned nondecreasingly. -/
theorem C3_activityLogCap (log : List ActivityLogEntry)
    (e : ActivityLogEntry) (es : List ActivityLogEntry) :
    activityLogCorrect log e es := by
  refine ⟨fun h => foldl_addActivityLog_length_le es log h, ?_, ?_, ?_⟩
  · unfold addActivityLog
    split
    · rfl
    · rfl
  · intro h
    unfold addActivityLog
    have hl : (e :: log).length > 100 := by
      simp only [List.length_cons, h]
      omega
    rw [if_pos hl]
    show e :: log.take 99 = e :: log.dropLast
    rw [List.dropLast_eq_take, h]
  · intro hs hmax
    have hcons : sortedDesc (e :: log) := by
      unfold sortedDesc at hs ⊢
      exact List.pairwise_cons.mpr ⟨hmax, hs⟩
    unfold addActivityLog
    unfold sortedDesc at hcons ⊢
    split
    · exact List.Pairwise.sublist (List.take_sublist 100 (e :: log)) hcons
    · exact hcons

/-- C3 witness: the activity-log claim evaluated at the concrete full log of
100 entries and a fresh newest entry, with every hypothesis discharged. -/
theorem C3_activityLogCap_witness :
    ((List.replicate 5 entry101).foldl addActivityLog log100).length ≤ 100
    ∧ (addActivityLog log100 entry101).head? = some entry101
    ∧ addActivityLog log100 entry101 = entry101 :: log100.dropLast
    ∧ sortedDesc (addActivityLog log100 entry101) := by
  have h := C3_activityLogCap log100 entry101 (List.replicate 5 entry101)
  obtain ⟨h1, h2, h3, h4⟩ := h
  have hlen : log100.length = 100 := by simp [log100]
  refine ⟨h1 (le_of_eq hlen), h2, h3 hlen, h4 ?_ ?_⟩
  · unfold sortedDesc
    decide
  · decide

/-- Helper: case analysis over the five step outcomes. -/
theorem runSetupSteps_cases (o : SetupOutcomes) :
    (runSetupSteps o).2 = allOk o
    ∧ (runSetupSteps o).1.head? = some 1
    ∧ (allOk o = true → (runSetupSteps o).1 = [1, 2, 3, 4, 5]) := by
  obtain ⟨a, b, c, d, e⟩ := o
  cases a <;> cases b <;> cases c <;> cases d <;> cases e <;>
    simp [runSetupSteps, allOk]

/-- C4: if any provisioning step fails, setupCompleted stays false after the
attempt (it becomes true only when all five steps resolve), and a subsequent
tick with the flag still false retries the full sequence from step 1. -/
theorem C4_setupCompletedOnlyOnFullSuccess (o o2 : SetupOutcomes)
    (sc : Bool) : provisioningRetryCorrect o o2 sc := by
  obtain ⟨h1, h2, h3⟩ := runSetupSteps_cases o
  obtain ⟨g1, g2, g3⟩ := runSetupSteps_cases o2
  refine ⟨?_, ?_, ?_, ?_⟩
  · intro hfail
    unfold performCompleteSetup
    rw [h1, hfail]
    exact ⟨rfl, rfl⟩
  · unfold performCompleteSetup
    rw [h1]
    cases hok : allOk o <;> cases sc <;> simp
  · unfold autoSetupAndConnect performCompleteSetup
    simpa using g2
  · intro hok
    unfold autoSetupAndConnect performCompleteSetup
    simpa using g3 hok

/-- C4 witness: the provisioning-failure claim evaluated at a concrete
failing first attempt and a concrete all-success retry, hypotheses
discharged. -/
theorem C4_setupCompletedOnlyOnFullSuccess_witness :
    ((performCompleteSetup allFailOutcomes false).1 = false
      ∧ (performCompleteSetup allFailOutcomes false).2.2 = false)
    ∧ (autoSetupAndConnect ("connected") false allOkOutcomes).2.head? = some 1
    ∧ (autoSetupAndConnect ("connected") false allOkOutcomes).2
        = [1, 2, 3, 4, 5] := by
  obtain ⟨h1, _, h3, h4⟩ :=
    C4_setupCompletedOnlyOnFullSuccess allFailOutcomes allOkOutcomes false
  exact ⟨h1 (by decide), h3, h4 (by decide)⟩

/-- C7 counterexample: the claim says a failed step is logged and the run
continues with the subsequent steps, but when step 1 fails the source aborts
the try block: only step 1 is attempted, steps 2-5 are never executed, and
the error is rethrown (the call does not resolve). -/
theorem C7_counterexample :
    (performCompleteSetup step1FailOutcomes false).2.1 = [1]
    ∧ 2 ∉ (performCompleteSetup step1FailOutcomes false).2.1
    ∧ (performCompleteSetup step1FailOutcomes false).2.2 = false := by
  decide

/-- C7 (amended): a failing provisioning step aborts the remainder of the
sequence — the steps attempted are exactly 1 up to and including the first
failing step, the error propagates to the caller, and setupCompleted is
unchanged. -/
theorem C7_abortAtFailedStep (o : SetupOutcomes) (sc : Bool) :
    abortAtFailedStep o sc := by
  unfold abortAtFailedStep
  obtain ⟨a, b, c, d, e⟩ := o
  cases a <;> cases b <;> cases c <;> cases d <;> cases e <;> cases sc <;>
    decide

/-- C7 witness: the amended claim evaluated at the concrete outcome where
step 2 fails, hypothesis discharged: only steps 1 and 2 are attempted. -/
theorem C7_abortAtFailedStep_witness :
    (performCompleteSetup step2FailOutcomes false).2.2 = false
    ∧ (performCompleteSetup step2FailOutcomes false).1 = false
    ∧ (performCompleteSetup step2FailOutcomes false).2.1
        = List.range' 1 (leadOk step2FailOutcomes + 1) :=
  C7_abortAtFailedStep step2FailOutcomes false (by decide)

/-- C5 counterexample: with only the third candidate responding but
provisioning not yet completed and every provisioning step failing, the
rethrown provisioning error is caught by the loop's continue, so the fourth
candidate IS probed and the connection status is never set to connected —
contradicting the claim that the fourth is never probed and the status flips
to connected. -/
theorem C5_counterexample :
    (discoverAndSetup thirdOnlyProbe allFailOutcomes
        (initDiscovery false)).probed
      = ["172.30.1.2", "192.168.1.100", "192.168.4.1", "10.0.0.1"]
    ∧ (discoverAndSetup thirdOnlyProbe allFailOutcomes
        (initDiscovery false)).connected = false := by
  decide

/-- C5 (amended): when only the third candidate responds to a probe and the
provisioning run after binding does not throw (already completed or all
steps succeed), discovery binds the third address, emits its CONN log, sets
the connection status to connected, and never probes a later candidate. -/
theorem C5_discoveryBindsThird (probe : String → Bool) (o : SetupOutcomes)
    (a b c : String) (rest : List String) (sc : Bool)
    (h1 : probe a = false) (h2 : probe b = false) (h3 : probe c = true)
    (h4 : sc = true ∨ allOk o = true) :
    discoveryBindsThird probe o a b c rest sc := by
  obtain ⟨g1, -, -⟩ := runSetupSteps_cases o
  rcases h4 with hsc | hok
  · subst hsc
    refine ⟨?_, ?_, ?_, ?_⟩ <;>
      simp [discoverLoop, h1, h2, h3, initDiscovery]
  · cases sc
    · refine ⟨?_, ?_, ?_, ?_⟩ <;>
        simp [discoverLoop, h1, h2, h3, initDiscovery,
          performCompleteSetup, g1, hok]
    · refine ⟨?_, ?_, ?_, ?_⟩ <;>
        simp [discoverLoop, h1, h2, h3, initDiscovery]

/-- C5 witness: the amended discovery claim evaluated at the fixed candidate
list with only the third candidate responding and all provisioning steps
succeeding, hypotheses discharged. -/
theorem C5_discoveryBindsThird_witness :
    discoveryBindsThird thirdOnlyProbe allOkOutcomes ("172.30.1.2")
      ("192.168.1.100") ("192.168.4.1") ["10.0.0.1"] false :=
  C5_discoveryBindsThird thirdOnlyProbe allOkOutcomes _ _ _ _ false
    (by decide) (by decide) (by decide) (Or.inr (by decide))

/-- C6: a service-status query whose primary mechanism and process-table
fallback both fail resolves to inactive, and a transport rejection is caught
and also resolves to inactive; no error propagates to the caller. -/
theorem C6_statusDegradesToInactive (t : Option RemoteHost) :
    statusDegradesToInactive t := by
  refine ⟨?_, ?_, ?_⟩
  · intro h _ h1 h2
    simp [statusCmdWithPs, h1, h2]
  · intro h ht h1
    subst ht
    simp [getMiotyStatus, statusCmdSimple, h1]
  · intro ht
    subst ht
    rfl

/-- C6 witness: the degraded-status claim evaluated at the concrete dead
host and at a transport rejection, hypotheses discharged. -/
theorem C6_statusDegradesToInactive_witness :
    statusCmdWithPs deadHost = "inactive"
    ∧ getMiotyStatus (some deadHost) = "inactive"
    ∧ getMiotyStatus none = "inactive" :=
  ⟨(C6_statusDegradesToInactive (some deadHost)).1 deadHost rfl rfl rfl,
   (C6_statusDegradesToInactive (some deadHost)).2.1 deadHost rfl rfl,
   (C6_statusDegradesToInactive none).2.2 rfl⟩

/-- C8 counterexample: the claim says the file fetcher's total timeout bound
is strictly longer than the command executor's, but the fetcher is killed
after 2 minutes while a command may run for 5 — the fetcher's bound is
strictly shorter. -/
theorem C8_counterexample :
    scpTimeoutMs = 120000 ∧ sshCommandTimeoutMs = 300000
    ∧ ¬ sshCommandTimeoutMs < scpTimeoutMs := by
  decide

/-- C8 (amended): the fetcher's total timeout bound (2 minutes) is strictly
shorter than the executor's total command timeout (5 minutes); only the
fetcher's connection timeout (10 s) exceeds the executor's (5 s). -/
theorem C8_timeoutBounds :
    scpTimeoutMs < sshCommandTimeoutMs
    ∧ sshConnectTimeoutSec < scpConnectTimeoutSec := by
  decide

/-- C9 counterexample: the claim says every failing invocation leaves the
temp-file state absent, but when the transfer succeeds and parsing fails the
promise rejects with the fetched file still on disk. -/
theorem C9_counterexample :
    (getMiotyXMLConfig parseFailEnv).1.isErr = true
    ∧ (getMiotyXMLConfig parseFailEnv).2 = true := by
  decide

/-- C9 (amended): cleanup of the fetched temp file happens only on the
successful path and via the pre-clean at the start of the next invocation;
read- and parse-failures leave the fetched file behind, and a transfer
failure leaves exactly what the failed transfer wrote. -/
theorem C9_tempFileLifecycle (env : FetchEnv) : tempFileLifecycle env := by
  obtain ⟨s, p, r, pa, doc⟩ := env
  unfold tempFileLifecycle
  cases s <;> cases r <;> cases pa <;>
    simp [getMiotyXMLConfig, FetchOutcome.isErr]

/-- C9 witness: the amended temp-file claim evaluated at the concrete
all-success environment, hypothesis discharged: no temp file remains. -/
theorem C9_tempFileLifecycle_witness :
    (getMiotyXMLConfig fetchOkEnv).2 = false :=
  (C9_tempFileLifecycle fetchOkEnv).1 (by decide)
